import Mathlib

/-!
Shallow embedding of `src/utils/email.ts` (Brevo email service integration):
configuration, input validation, size formatting, message construction, and
the three public dispatch operations `sendContactForm`, `sendOrderConfirmation`
and `sendDocumentDelivery`, together with theorems settling the specification
claims about them.

Effects are made explicit: each operation is a pure function of an
environment (`Env`) carrying the configured API key, the outcome of the single
`fetch` POST to the Brevo API, the outcome of the EmailJS SDK call, and a
clock stream for `getCurrentDateTime`.  An operation returns its thrown-or-ok
result (`Except`), the list of network calls it performed, the console log
entries it emitted, and how many times it read the clock.

Large static HTML/CSS template markup is abbreviated to its dynamic
interpolation points (in source order); the plain-text templates are embedded
essentially verbatim.
-/

namespace EmailTs

/-- The static part of `CONFIG` (src lines 5-23). `CONFIG.brevo.apiKey` comes
from the environment (`import.meta.env.VITE_BREVO_API_KEY || ''`), so it lives
in `Env` below instead. -/
structure Config where
  brevoApiUrl : String
  brevoSenderEmail : String
  brevoSenderName : String
  emailjsServiceId : String
  emailjsPublicKey : String
  templateContact : String
  templateOrder : String
  developerEmail : String

/-- src lines 5-23 minus the environment-supplied API key. -/
def CONFIG : Config :=
  { brevoApiUrl := "https://api.brevo.com/v3/smtp/email"
    brevoSenderEmail := "mohansfiles@gmail.com"
    brevoSenderName := "TechCreator"
    emailjsServiceId := "service_qj44izj"
    emailjsPublicKey := "aImlP6dotqO-E3y6h"
    templateContact := "template_k92zaj2"
    templateOrder := "purchase_confirmation"
    developerEmail := "mohanselemophile@gmail.com" }

/-- Splits a character list at every occurrence of `sep`
(so the result has one more part than there are separators). -/
def splitOnChar (sep : Char) : List Char → List (List Char)
  | [] => [[]]
  | c :: cs =>
    match splitOnChar sep cs with
    | [] => if c == sep then [[], []] else [[c]]
    | h :: t => if c == sep then [] :: h :: t else (c :: h) :: t

/-- `validateEmail` (src lines 79-81): the regex
`/^[^\s@]+@[^\s@]+\.[^\s@]+$/`.  A string matches iff it splits as
`A ++ "@" ++ D` with exactly one `@`, `A` and `D` nonempty and free of
whitespace, and `D` containing a `.` that is neither its first nor its last
character (the character class `[^\s@]` admits further dots on either side,
so any interior dot of the domain part yields a match). -/
def validateEmail (email : String) : Bool :=
  match splitOnChar '@' email.toList with
  | [lc, dc] =>
    !lc.isEmpty && lc.all (fun c => !c.isWhitespace) &&
    !dc.isEmpty && dc.all (fun c => !c.isWhitespace) &&
    ((dc.drop 1).dropLast.contains '.')
  | _ => false

/-- The record returned by `getCurrentDateTime` (src lines 83-90): the
locale-rendered date, time and the ISO datetime of one `new Date()` reading.
The actual strings are environment data, supplied by `Env.clock`. -/
structure DateTimeParts where
  date : String
  time : String
  datetime : String
deriving DecidableEq

/-- `sizes` array of `formatFileSize` (src line 95). -/
def sizes : List String := ["Bytes", "KB", "MB", "GB"]

/-- Fuelled floor logarithm: `logBAux b fuel n` counts how often `n` can be
divided by `b` before dropping below `b`; with `fuel ≥ n` it equals
`Nat.log b n` (proved below). -/
def logBAux (b : Nat) : Nat → Nat → Nat
  | 0, _ => 0
  | fuel + 1, n => if n < b then 0 else logBAux b fuel (n / b) + 1

/-- The unit index `i = Math.floor(Math.log(bytes) / Math.log(1024))`
(src line 96), idealized over exact reals: the floor base-1024 logarithm
`⌊log₁₀₂₄ bytes⌋` (equal to `Nat.log 1024 bytes`). -/
def formatFileSizeExp (bytes : Nat) : Nat := logBAux 1024 bytes bytes

/-- The mantissa `(bytes / Math.pow(1024, i)).toFixed(2)` (src line 97),
in hundredths: `toFixed(2)` rounds to the nearest hundredth with ties away
from zero, i.e. `⌊100·bytes/1024^i + 1/2⌋ = (200·bytes + 1024^i) / (2·1024^i)`. -/
def formatFileSizeMantissaH (bytes : Nat) : Nat :=
  (200 * bytes + 1024 ^ formatFileSizeExp bytes) / (2 * 1024 ^ formatFileSizeExp bytes)

/-- `sizes[i]` (src line 97); `none` models the JavaScript `undefined` an
out-of-range index produces. -/
def formatFileSizeUnit (bytes : Nat) : Option String :=
  sizes.get? (formatFileSizeExp bytes)

/-- Rendering of `parseFloat((…).toFixed(2))` concatenated into the result
string (src line 97): `parseFloat` drops trailing fractional zeros, so a
mantissa of `h` hundredths prints with zero, one or two decimal places. -/
def formatTwoDecimals (h : Nat) : String :=
  let ip := h / 100
  let fp := h % 100
  if fp = 0 then toString ip
  else if fp % 10 = 0 then toString ip ++ "." ++ toString (fp / 10)
  else if fp < 10 then toString ip ++ ".0" ++ toString fp
  else toString ip ++ "." ++ toString fp

/-- `formatFileSize` (src lines 92-98).  `undefined` is what JavaScript
concatenates when `i` runs past the end of `sizes`. -/
def formatFileSize (bytes : Nat) : String :=
  if bytes = 0 then "0 Bytes"
  else formatTwoDecimals (formatFileSizeMantissaH bytes) ++ " " ++
    ((formatFileSizeUnit bytes).getD "undefined")

/-- `ContactFormData` (src lines 26-32). -/
structure ContactFormData where
  from_name : String
  from_email : String
  project_type : String
  budget : String
  message : String
deriving DecidableEq

/-- `OrderConfirmationData` (src lines 34-41). -/
structure OrderConfirmationData where
  project_title : String
  customer_name : String
  price : String
  download_instructions : Option String := none
  support_email : Option String := none
  order_id : Option String := none
deriving DecidableEq

/-- One element of `DocumentDeliveryData.documents` (src lines 48-54). -/
structure DocumentItem where
  name : String
  url : String
  category : String
  review_stage : String
  size : Option Nat := none
deriving DecidableEq

/-- `DocumentDeliveryData` (src lines 43-56). -/
structure DocumentDeliveryData where
  project_title : String
  customer_name : String
  customer_email : String
  order_id : String
  documents : List DocumentItem
  access_expires : Option String := none
deriving DecidableEq

/-- `BrevoEmailData.sender` (src lines 59-62). -/
structure BrevoSender where
  name : String
  email : String
deriving DecidableEq

/-- One entry of `BrevoEmailData.to` (src lines 63-66). -/
structure BrevoRecipient where
  email : String
  name : Option String := none
deriving DecidableEq

/-- `BrevoEmailData` (src lines 58-76).  The `attachment` field is never
constructed by any operation in this module and is omitted. -/
structure BrevoEmailData where
  sender : BrevoSender
  «to» : List BrevoRecipient
  subject : String
  htmlContent : String
  textContent : Option String := none
  tags : List String := []
deriving DecidableEq

/-- The flattened template-variable map sent to EmailJS by `sendContactForm`
(src lines 169-180). -/
structure ContactTemplateVars where
  name : String
  email : String
  project_type : String
  budget : String
  message : String
  current_date : String
  current_time : String
  title : String
  to_email : String
  reply_to : String
deriving DecidableEq

/-- An `emailjs.send(serviceId, templateId, vars, publicKey)` invocation
(src lines 166-182). -/
structure EmailJsCall where
  serviceId : String
  templateId : String
  vars : ContactTemplateVars
  publicKey : String
deriving DecidableEq

/-- Errors thrown by the module.  `jsError msg` is `throw new Error(msg)` with
the source's message; `transportError` is a rejected `fetch`;
`jsonParseError` is `response.json()` rejecting on the 2xx path
(src line 145, outside any `.catch`). -/
inductive EmailError where
  | jsError (msg : String)
  | transportError (msg : String)
  | jsonParseError
deriving DecidableEq

/-- A console log entry (`console.warn` / `console.log` / `console.error`);
`error` carries the logged error object when the source passes one. -/
inductive LogEntry where
  | warn (msg : String)
  | log (msg : String)
  | error (msg : String) (e : Option EmailError)
deriving DecidableEq

/-- Outcome of the single `fetch` POST in `sendBrevoEmail` (src lines
113-121): either the promise rejects, or a response arrives with `ok`,
`status`, whether its body parses as JSON, and the parsed body's optional
`message` field. -/
inductive FetchOutcome where
  | networkError (msg : String)
  | response (ok : Bool) (status : Nat) (jsonOk : Bool) (message : Option String)
deriving DecidableEq

/-- A network call performed by an operation: the Brevo HTTP POST or the
EmailJS SDK send. -/
inductive NetCall where
  | brevoPost (d : BrevoEmailData)
  | emailjsSend (c : EmailJsCall)
deriving DecidableEq

/-- The ambient environment of one dispatch call: the configured API key
(`''` when `VITE_BREVO_API_KEY` is unset), the outcome the network would give
each Brevo POST, whether each EmailJS send resolves, and the clock stream
(`clock n` is what the `n`-th `new Date()` of the call would read). -/
structure Env where
  apiKey : String
  fetch : BrevoEmailData → FetchOutcome
  emailjs : EmailJsCall → Bool
  clock : Nat → DateTimeParts

/-- Result of one public operation: the value returned or error thrown, the
network calls made (in order), the console log entries (in order), and the
number of `getCurrentDateTime` calls performed. -/
structure SendResult where
  result : Except EmailError Unit
  calls : List NetCall
  logs : List LogEntry
  clockCalls : Nat

/-- Result of one internal `sendBrevoEmail` call. -/
structure BrevoSendOut where
  result : Except EmailError Unit
  calls : List NetCall
  logs : List LogEntry

/-- JavaScript `x || d` on an optional string: the default is used when the
value is absent or the empty string (falsy). -/
def jsOr (o : Option String) (d : String) : String :=
  match o with
  | some s => if s = "" then d else s
  | none => d

/-- Does the first list start with the second? (helper for `strContains`). -/
def startsWithL [BEq α] : List α → List α → Bool
  | _, [] => true
  | [], _ :: _ => false
  | a :: as, b :: bs => a == b && startsWithL as bs

/-- Does the second list occur contiguously inside the first? -/
def occursIn [BEq α] (haystack needle : List α) : Bool :=
  match haystack with
  | [] => needle.isEmpty
  | _ :: as => startsWithL haystack needle || occursIn as needle

/-- JavaScript `s.includes(pat)`. -/
def strContains (s pat : String) : Bool := occursIn s.toList pat.toList

/-- The multi-line message of the sender-validation error thrown at src
lines 128-139 (interpolating `errorData.message` and the sender email). -/
def brevoSenderValidationMsg (m senderEmail : String) : String :=
  "\nBrevo Sender Validation Error: " ++ m ++
  "\n\nTo fix this:\n1. Go to https://app.brevo.com/senders/domain\n2. Add and validate your domain, OR\n3. Go to https://app.brevo.com/senders/list\n4. Add and validate your sender email address\n5. Update the senderEmail in the email configuration\n\nCurrent sender: " ++
  senderEmail ++ "\n        "

/-- `sendBrevoEmail` (src lines 101-151).  An empty API key short-circuits to
a successful return after warning logs, with no network call.  Otherwise the
one `fetch` is performed; a non-2xx response is classified as a
sender-validation fault (`status == 400` and the parsed body message contains
`'sender'`) or a generic API error (with `errorData.message || 'Unknown
error'`); a body that fails to parse is replaced by `{}` on the error path
(src line 124) but rethrows on the 2xx path (src line 145).  Every error is
logged (`console.error`, src line 148) and rethrown. -/
def sendBrevoEmail (env : Env) (emailData : BrevoEmailData) : BrevoSendOut :=
  if env.apiKey = "" then
    { result := .ok (), calls := [],
      logs := [.warn "Brevo API key is not configured. Email will not be sent.",
        .log "To configure Brevo:",
        .log "1. Go to https://app.brevo.com/settings/keys/api",
        .log "2. Create an API key",
        .log "3. Add VITE_BREVO_API_KEY to your .env file",
        .log "4. Validate your sender email in Brevo dashboard"] }
  else
    match env.fetch emailData with
    | .networkError m =>
      { result := .error (.transportError m), calls := [.brevoPost emailData],
        logs := [.error "Brevo email sending failed:" (some (.transportError m))] }
    | .response ok status jsonOk message =>
      if ok then
        if jsonOk then
          { result := .ok (), calls := [.brevoPost emailData],
            logs := [.log "Email sent successfully via Brevo:"] }
        else
          { result := .error .jsonParseError, calls := [.brevoPost emailData],
            logs := [.error "Brevo email sending failed:" (some .jsonParseError)] }
      else
        let errMessage : Option String := if jsonOk then message else none
        let e : EmailError :=
          match errMessage with
          | some m =>
            if status == 400 && strContains m "sender" then
              .jsError (brevoSenderValidationMsg m emailData.sender.email)
            else
              .jsError ("Brevo API error: " ++ toString status ++ " - " ++
                (if m = "" then "Unknown error" else m))
          | none => .jsError ("Brevo API error: " ++ toString status ++ " - Unknown error")
        { result := .error e, calls := [.brevoPost emailData],
          logs := [.error "Brevo email sending failed:" (some e)] }

/-- The `emailjs.send` invocation built by `sendContactForm`
(src lines 166-182). -/
def contactCall (data : ContactFormData) (date time : String) : EmailJsCall :=
  { serviceId := CONFIG.emailjsServiceId
    templateId := CONFIG.templateContact
    vars :=
      { name := data.from_name
        email := data.from_email
        project_type := data.project_type
        budget := data.budget
        message := data.message
        current_date := date
        current_time := time
        title := "New inquiry from " ++ data.from_name
        to_email := CONFIG.developerEmail
        reply_to := data.from_email }
    publicKey := CONFIG.emailjsPublicKey }

/-- `sendContactForm` (src lines 154-187): validate the sender address, read
the clock once, send via EmailJS; any failure of the dynamic import or the
send is logged (`console.error`, the rejection itself is not one of this
module's errors, hence `none`) and replaced by the fixed thrown error. -/
def sendContactForm (env : Env) (data : ContactFormData) : SendResult :=
  if !validateEmail data.from_email then
    { result := .error (.jsError "Invalid sender email address"),
      calls := [], logs := [], clockCalls := 0 }
  else
    let dt := env.clock 0
    let c := contactCall data dt.date dt.time
    if env.emailjs c then
      { result := .ok (), calls := [.emailjsSend c], logs := [], clockCalls := 1 }
    else
      { result := .error (.jsError "Failed to send your message. Please try again later."),
        calls := [.emailjsSend c],
        logs := [.error "Contact form email failed:" none], clockCalls := 1 }

/-- `htmlContent` of the order-confirmation email (src lines 199-278).
Static HTML/CSS markup is elided; every dynamic interpolation of the source
template appears, in source order. -/
def orderConfirmationHtml (data : OrderConfirmationData) (date : String) : String :=
  "<html>[markup elided] Order Confirmation - TechCreator [markup elided] Hello " ++
  data.customer_name ++
  ", [markup elided] Order ID: " ++ data.order_id.getD "undefined" ++
  " Project: " ++ data.project_title ++
  " Amount Paid: " ++ data.price ++
  " Order Date: " ++ date ++
  " [markup elided] mailto:" ++ CONFIG.developerEmail ++ " " ++ CONFIG.developerEmail ++
  " [markup elided]</html>"

/-- `textContent` of the order-confirmation email (src lines 280-305),
embedded verbatim. -/
def orderConfirmationText (data : OrderConfirmationData) (date : String) : String :=
  "\nOrder Confirmation - TechCreator\n\nHello " ++ data.customer_name ++
  ",\n\nYour order has been confirmed! Here are your order details:\n\nOrder ID: " ++
  data.order_id.getD "undefined" ++
  "\nProject: " ++ data.project_title ++
  "\nAmount Paid: " ++ data.price ++
  "\nOrder Date: " ++ date ++
  "\n\nIMPORTANT: You will receive a separate email within 24 hours containing download links for all project documents.\n\nWhat\x27s Included:\n- Complete source code and project files\n- Comprehensive documentation across 3 review stages\n- Installation and setup guides\n- Technical specifications and implementation details\n- Lifetime access to all downloads\n- Email support for technical questions\n\nIf you have any questions, contact us at " ++
  CONFIG.developerEmail ++ "\n\nThank you for choosing TechCreator!\n  "

/-- The `BrevoEmailData` built by `sendOrderConfirmation` (src lines 307-320). -/
def orderConfirmationEmailData (data : OrderConfirmationData) (recipientEmail date : String) :
    BrevoEmailData :=
  { sender := { name := CONFIG.brevoSenderName, email := CONFIG.brevoSenderEmail }
    «to» := [{ email := recipientEmail, name := some data.customer_name }]
    subject := "Order Confirmation - " ++ data.project_title ++ " (" ++
      data.order_id.getD "undefined" ++ ")"
    htmlContent := orderConfirmationHtml data date
    textContent := some (orderConfirmationText data date)
    tags := ["order-confirmation", "transactional"] }

/-- `sendOrderConfirmation` (src lines 189-329): validate the recipient, read
the clock once, build the message, send via Brevo; a send failure is logged
and swallowed (src lines 324-328, "Do not throw error for order confirmation
- order should still complete"). -/
def sendOrderConfirmation (env : Env) (data : OrderConfirmationData)
    (recipientEmail : String) : SendResult :=
  if !validateEmail recipientEmail then
    { result := .error (.jsError "Invalid recipient email address"),
      calls := [], logs := [], clockCalls := 0 }
  else
    let date := (env.clock 0).date
    let emailData := orderConfirmationEmailData data recipientEmail date
    let out := sendBrevoEmail env emailData
    match out.result with
    | .ok _ => { result := .ok (), calls := out.calls, logs := out.logs, clockCalls := 1 }
    | .error e =>
      { result := .ok (), calls := out.calls,
        logs := out.logs ++
          [.error "Order confirmation failed:" (some e),
           .log "Order completed successfully, but email notification failed. Customer should be notified manually."],
        clockCalls := 1 }

/-- The three review-stage keys of `documentsByStage` / `stageLabels`
(src lines 339-349). -/
inductive Stage where
  | review_1
  | review_2
  | review_3
deriving DecidableEq

/-- The `documentsByStage` record (src lines 339-343). -/
structure DocumentsByStage where
  review_1 : List DocumentItem
  review_2 : List DocumentItem
  review_3 : List DocumentItem
deriving DecidableEq

/-- `documentsByStage` (src lines 339-343): one `filter` per fixed stage key. -/
def documentsByStage (documents : List DocumentItem) : DocumentsByStage :=
  { review_1 := documents.filter (fun doc => doc.review_stage == "review_1")
    review_2 := documents.filter (fun doc => doc.review_stage == "review_2")
    review_3 := documents.filter (fun doc => doc.review_stage == "review_3") }

/-- Field access `documentsByStage[stage]` (src line 353). -/
def stageDocs (dbs : DocumentsByStage) : Stage → List DocumentItem
  | .review_1 => dbs.review_1
  | .review_2 => dbs.review_2
  | .review_3 => dbs.review_3

/-- `stageLabels` (src lines 345-349). -/
def stageLabel : Stage → String
  | .review_1 => "Review 1 - Initial Project Review"
  | .review_2 => "Review 2 - Mid-Project Assessment"
  | .review_3 => "Review 3 - Final Review & Completion"

/-- `Object.entries(documentsByStage)` (src line 477): insertion order of the
object literal, i.e. the fixed stage order. -/
def stageEntries (dbs : DocumentsByStage) : List (Stage × List DocumentItem) :=
  [(.review_1, dbs.review_1), (.review_2, dbs.review_2), (.review_3, dbs.review_3)]

/-- `doc.category.charAt(0).toUpperCase() + doc.category.slice(1)`
(src line 366). -/
def capitalizeFirst (s : String) : String :=
  match s.toList with
  | [] => ""
  | c :: rest => String.mk (c.toUpper :: rest)

/-- The `doc.size ? ... : ''` fragments (src lines 367 and 483): `size` of
`0` is falsy in JavaScript, so it renders nothing, like an absent size. -/
def sizeFragment (pre : String) (size : Option Nat) : String :=
  match size with
  | some n => if n = 0 then "" else pre ++ formatFileSize n
  | none => ""

/-- One document card of `generateStageHtml` (src lines 360-377); markup
elided, interpolations in source order. -/
def docHtmlBlock (doc : DocumentItem) : String :=
  "[markup elided] " ++ doc.name ++ " Category: " ++ capitalizeFirst doc.category ++
  sizeFragment " • Size: " doc.size ++
  " [markup elided] href=" ++ doc.url ++ " Download Document [markup elided]"

/-- `generateStageHtml` (src lines 352-381): empty string for an empty stage,
else the stage label followed by the cards of that stage in order. -/
def generateStageHtml (dbs : DocumentsByStage) (stage : Stage) : String :=
  let docs := stageDocs dbs stage
  if docs.isEmpty then ""
  else "[markup elided] " ++ stageLabel stage ++ " [markup elided] " ++
    String.join (docs.map docHtmlBlock) ++ " [markup elided]"

/-- `htmlContent` of the document-delivery email (src lines 383-461); markup
elided, interpolations (title, greeting, summary, the three stage sections in
fixed order, support address) in source order. -/
def documentDeliveryHtml (data : DocumentDeliveryData) (date : String) : String :=
  let dbs := documentsByStage data.documents
  "<html>[markup elided] Project Documents - " ++ data.project_title ++
  " [markup elided] Hello " ++ data.customer_name ++
  ", [markup elided] " ++ data.project_title ++
  " [markup elided] Order ID: " ++ data.order_id ++
  " Total Documents: " ++ toString data.documents.length ++
  " Access: " ++ jsOr data.access_expires "Lifetime access" ++
  " Delivery Date: " ++ date ++
  " [markup elided] " ++ generateStageHtml dbs .review_1 ++
  " " ++ generateStageHtml dbs .review_2 ++
  " " ++ generateStageHtml dbs .review_3 ++
  " [markup elided] mailto:" ++ CONFIG.developerEmail ++ " " ++ CONFIG.developerEmail ++
  " [markup elided]</html>"

/-- One document entry of the plain-text summary (src lines 481-485),
embedded verbatim. -/
def docTextLine (doc : DocumentItem) : String :=
  "\n  • " ++ doc.name ++
  "\n    Category: " ++ doc.category ++ sizeFragment " | Size: " doc.size ++
  "\n    Download: " ++ doc.url ++ "\n"

/-- One stage block of the plain-text summary (src lines 478-486): the empty
string for an empty stage, else the label and the entries of that stage in
order. -/
def stageTextBlock (stage : Stage) (docs : List DocumentItem) : String :=
  if docs.isEmpty then ""
  else "\n" ++ stageLabel stage ++ ":\n" ++ String.join (docs.map docTextLine) ++ "\n"

/-- The document section of the plain-text summary (src lines 477-487):
stage blocks in fixed entry order, empty blocks removed by
`.filter(Boolean)`, joined with newlines. -/
def documentsTextSection (dbs : DocumentsByStage) : String :=
  String.intercalate "\n"
    (((stageEntries dbs).map (fun p => stageTextBlock p.1 p.2)).filter (fun s => s != ""))

/-- The documents in the order their entries are rendered in the summary:
the three stage partitions concatenated in fixed stage order (each document
of the list produces exactly one `docTextLine` / `docHtmlBlock`). -/
def listedDocs (documents : List DocumentItem) : List DocumentItem :=
  (documentsByStage documents).review_1 ++ (documentsByStage documents).review_2 ++
    (documentsByStage documents).review_3

/-- `textContent` of the document-delivery email (src lines 463-496),
embedded verbatim. -/
def documentDeliveryText (data : DocumentDeliveryData) (date : String) : String :=
  "\nProject Documents - " ++ data.project_title ++
  "\n\nHello " ++ data.customer_name ++
  ",\n\nYour project documents for \"" ++ data.project_title ++
  "\" are now available for download!\n\nOrder ID: " ++ data.order_id ++
  "\nTotal Documents: " ++ toString data.documents.length ++
  "\nAccess: " ++ jsOr data.access_expires "Lifetime access" ++
  "\nDelivery Date: " ++ date ++
  "\n\nDOCUMENTS BY REVIEW STAGE:\n\n" ++
  documentsTextSection (documentsByStage data.documents) ++
  "\n\nIMPORTANT NOTES:\n- Save these links for future access\n- Download files promptly for best experience\n- Contact support if any links don\x27t work\n- Technical support available at " ++
  CONFIG.developerEmail ++ "\n\nThank you for choosing TechCreator!\n  "

/-- The `BrevoEmailData` built by `sendDocumentDelivery` (src lines 498-511). -/
def documentDeliveryEmailData (data : DocumentDeliveryData) (date : String) :
    BrevoEmailData :=
  { sender := { name := CONFIG.brevoSenderName, email := CONFIG.brevoSenderEmail }
    «to» := [{ email := data.customer_email, name := some data.customer_name }]
    subject := "📁 Project Documents Ready - " ++ data.project_title ++ " (" ++
      data.order_id ++ ")"
    htmlContent := documentDeliveryHtml data date
    textContent := some (documentDeliveryText data date)
    tags := ["document-delivery", "transactional", "project-files"] }

/-- `sendDocumentDelivery` (src lines 331-520): validate the recipient, read
the clock once, build the message, send via Brevo; success adds a success
log, failure is logged and rethrown as the fixed terminal error
(src lines 516-519). -/
def sendDocumentDelivery (env : Env) (data : DocumentDeliveryData) : SendResult :=
  if !validateEmail data.customer_email then
    { result := .error (.jsError "Invalid recipient email address"),
      calls := [], logs := [], clockCalls := 0 }
  else
    let date := (env.clock 0).date
    let emailData := documentDeliveryEmailData data date
    let out := sendBrevoEmail env emailData
    match out.result with
    | .ok _ =>
      { result := .ok (), calls := out.calls,
        logs := out.logs ++ [.log "Document delivery email sent successfully via Brevo"],
        clockCalls := 1 }
    | .error e =>
      { result := .error (.jsError "Failed to send document delivery email. Please try again later."),
        calls := out.calls,
        logs := out.logs ++ [.error "Document delivery email failed:" (some e)],
        clockCalls := 1 }

/-- The single document of the `testData` in `testBrevoService` (src lines 600-608). -/
def testDoc : DocumentItem :=
  { name := "Test Document.pdf"
    url := "https://example.com/test.pdf"
    category := "document"
    review_stage := "review_1"
    size := some 1024000 }

/-- The `testData` of `testBrevoService` (src lines 595-609). -/
def testData : DocumentDeliveryData :=
  { project_title := "Test Project"
    customer_name := "Test Customer"
    customer_email := "test@example.com"
    order_id := "TEST123"
    documents := [testDoc] }

/-! Concrete test fixtures used to instantiate the theorems below. -/

/-- An environment with no Brevo API key configured
(`VITE_BREVO_API_KEY` unset, so `CONFIG.brevo.apiKey = ''`); the network is
unreachable and EmailJS rejects, were they ever consulted. -/
def envNoKey : Env :=
  { apiKey := ""
    fetch := fun _ => .networkError "network unreachable"
    emailjs := fun _ => false
    clock := fun _ =>
      { date := "1/1/2025", time := "00:00:00", datetime := "2025-01-01T00:00:00.000Z" } }

/-- An environment with a configured API key whose provider answers every
request with a plain HTTP 500 (JSON body without a `message` field). -/
def envFail500 : Env :=
  { apiKey := "test-api-key"
    fetch := fun _ => .response false 500 true none
    emailjs := fun _ => false
    clock := fun _ =>
      { date := "1/1/2025", time := "00:00:00", datetime := "2025-01-01T00:00:00.000Z" } }

/-- `envNoKey` with a clock that drifts after its first reading. -/
def envNoKeyAltClock : Env :=
  { envNoKey with
    clock := fun n =>
      if n = 0 then envNoKey.clock 0
      else { date := "2/2/2026", time := "11:11:11", datetime := "2026-02-02T11:11:11.000Z" } }

/-- A sample order-confirmation input. -/
def sampleOrder : OrderConfirmationData :=
  { project_title := "Sample Project"
    customer_name := "Sam Customer"
    price := "$99"
    order_id := some "ORD-1" }

/-- A sample contact-form input with a syntactically valid sender address. -/
def sampleContact : ContactFormData :=
  { from_name := "Sam"
    from_email := "sam@example.com"
    project_type := "web"
    budget := "1000"
    message := "hello" }

/-- `sampleContact` with an invalid sender address. -/
def badContact : ContactFormData :=
  { sampleContact with from_email := "not-an-email" }

/-- A document whose review-stage tag is none of the three recognized
values. -/
def unrecognizedDoc : DocumentItem :=
  { name := "Spec.pdf"
    url := "https://example.com/spec.pdf"
    category := "document"
    review_stage := "final" }

/-- `testData` carrying only `unrecognizedDoc`. -/
def sampleDelivery : DocumentDeliveryData :=
  { testData with documents := [unrecognizedDoc] }

/-- `testData` with an invalid recipient address. -/
def badDelivery : DocumentDeliveryData :=
  { testData with customer_email := "a@b" }

/-! Theorems settling the claims. -/

/-- C1 counterexample: with no primary credential configured (and the network
unreachable, so any further channel would fail), `sendDocumentDelivery` on
the test input returns successfully with no network call at all — it does
not treat the missing credential as a primary failure, attempts no secondary
channel, and raises no terminal error. -/
theorem C1_counterexample :
    (sendDocumentDelivery envNoKey testData).result = .ok () ∧
    (sendDocumentDelivery envNoKey testData).calls = [] := ⟨rfl, rfl⟩

/-- C1 (amended): for a valid recipient, when the primary channel has no
credential configured `sendDocumentDelivery` completes successfully without
any network call; and whenever the single Brevo send fails, the operation
raises the terminal delivery-failure error to the caller, performing exactly
the calls of that one send (no secondary or tertiary channel exists). -/
theorem C1_claim (env : Env) (data : DocumentDeliveryData)
    (hv : validateEmail data.customer_email = true) :
    (env.apiKey = "" →
      (sendDocumentDelivery env data).result = .ok () ∧
      (sendDocumentDelivery env data).calls = []) ∧
    (∀ e, (sendBrevoEmail env
        (documentDeliveryEmailData data (env.clock 0).date)).result = .error e →
      (sendDocumentDelivery env data).result =
        .error (.jsError "Failed to send document delivery email. Please try again later.") ∧
      (sendDocumentDelivery env data).calls =
        (sendBrevoEmail env (documentDeliveryEmailData data (env.clock 0).date)).calls) := by
  constructor
  · intro hk
    simp [sendDocumentDelivery, hv, sendBrevoEmail, hk]
  · intro e he
    simp only [sendDocumentDelivery, hv, Bool.not_true, Bool.false_eq_true, if_false]
    rw [he]
    exact ⟨rfl, rfl⟩

/-- C1 witness: with a configured key and the provider failing with HTTP 500,
document-bundle dispatch raises the terminal error. -/
theorem C1_claim_witness :
    (sendDocumentDelivery envFail500 testData).result =
      .error (.jsError "Failed to send document delivery email. Please try again later.") :=
  ((C1_claim envFail500 testData rfl).2
    (.jsError "Brevo API error: 500 - Unknown error") rfl).1

/-- C2 counterexample: with an invalid recipient address,
`sendOrderConfirmation` errors to the caller (the InvalidAddress throw),
contradicting the claim that it never errors for any input. -/
theorem C2_counterexample :
    (sendOrderConfirmation envNoKey sampleOrder "not-an-email").result =
      .error (.jsError "Invalid recipient email address") ∧
    (sendOrderConfirmation envNoKey sampleOrder "not-an-email").result ≠ .ok () := by
  have h1 : (sendOrderConfirmation envNoKey sampleOrder "not-an-email").result =
      .error (.jsError "Invalid recipient email address") := rfl
  exact ⟨h1, by rw [h1]; simp⟩

/-- C2 (amended): `sendOrderConfirmation` never errors to the caller for any
input whose recipient address passes validation — every send outcome,
including provider and transport failures, is swallowed; an invalid
recipient address raises InvalidAddress before any send. -/
theorem C2_claim (env : Env) (data : OrderConfirmationData) (recipientEmail : String)
    (hr : validateEmail recipientEmail = true) :
    (sendOrderConfirmation env data recipientEmail).result = .ok () := by
  simp only [sendOrderConfirmation, hr, Bool.not_true, Bool.false_eq_true, if_false]
  split <;> rfl

/-- C2 witness: a valid recipient with an unreachable network still returns
successfully. -/
theorem C2_claim_witness :
    (sendOrderConfirmation envFail500 sampleOrder "customer@example.com").result = .ok () :=
  C2_claim envFail500 sampleOrder "customer@example.com" rfl

/-- C3: when the provider answers every request with HTTP 500 and a valid
recipient is given, `sendOrderConfirmation` returns successfully (no error
propagated) while the failure is recorded on the console side channel. -/
theorem C3_claim (env : Env) (data : OrderConfirmationData) (recipientEmail : String)
    (hr : validateEmail recipientEmail = true) (hk : ¬ env.apiKey = "")
    (hf : ∀ ed, env.fetch ed = .response false 500 true none) :
    (sendOrderConfirmation env data recipientEmail).result = .ok () ∧
    LogEntry.error "Order confirmation failed:"
        (some (.jsError "Brevo API error: 500 - Unknown error")) ∈
      (sendOrderConfirmation env data recipientEmail).logs := by
  simp [sendOrderConfirmation, hr, sendBrevoEmail, hk, hf]
  rfl

/-- C3 witness: instantiated at the concrete HTTP-500 environment. -/
theorem C3_claim_witness :
    (sendOrderConfirmation envFail500 sampleOrder "customer@example.com").result = .ok () ∧
    LogEntry.error "Order confirmation failed:"
        (some (.jsError "Brevo API error: 500 - Unknown error")) ∈
      (sendOrderConfirmation envFail500 sampleOrder "customer@example.com").logs :=
  C3_claim envFail500 sampleOrder "customer@example.com" rfl
    (by simp [envFail500]) (fun _ => rfl)

/-- C10: with an empty primary API key and valid recipient addresses, both
`sendOrderConfirmation` and `sendDocumentDelivery` complete successfully
with no network call and no attempt on any other channel: the
missing-credential case is a silent no-op success. -/
theorem C10_claim (env : Env) (od : OrderConfirmationData) (r : String)
    (dd : DocumentDeliveryData) (hk : env.apiKey = "")
    (hr : validateEmail r = true) (hd : validateEmail dd.customer_email = true) :
    (sendOrderConfirmation env od r).result = .ok () ∧
    (sendOrderConfirmation env od r).calls = [] ∧
    (sendDocumentDelivery env dd).result = .ok () ∧
    (sendDocumentDelivery env dd).calls = [] := by
  refine ⟨?_, ?_, ?_, ?_⟩ <;>
    simp [sendOrderConfirmation, sendDocumentDelivery, hr, hd, sendBrevoEmail, hk]

/-- C10 witness: instantiated at the concrete no-key environment. -/
theorem C10_claim_witness :
    (sendOrderConfirmation envNoKey sampleOrder "customer@example.com").result = .ok () ∧
    (sendOrderConfirmation envNoKey sampleOrder "customer@example.com").calls = [] ∧
    (sendDocumentDelivery envNoKey testData).result = .ok () ∧
    (sendDocumentDelivery envNoKey testData).calls = [] :=
  C10_claim envNoKey sampleOrder "customer@example.com" testData rfl rfl rfl

/-- C5: an address failing the syntactic pattern makes each public operation
fail with the InvalidAddress error before any network call; and the address
check is the only input validation — with a valid address every operation
proceeds to dispatch (reads the clock) whatever the remaining fields hold. -/
theorem C5_claim (env : Env) (cd : ContactFormData) (od : OrderConfirmationData)
    (dd : DocumentDeliveryData) (r : String) :
    (validateEmail cd.from_email = false →
      (sendContactForm env cd).result = .error (.jsError "Invalid sender email address") ∧
      (sendContactForm env cd).calls = []) ∧
    (validateEmail r = false →
      (sendOrderConfirmation env od r).result =
        .error (.jsError "Invalid recipient email address") ∧
      (sendOrderConfirmation env od r).calls = []) ∧
    (validateEmail dd.customer_email = false →
      (sendDocumentDelivery env dd).result =
        .error (.jsError "Invalid recipient email address") ∧
      (sendDocumentDelivery env dd).calls = []) ∧
    (validateEmail cd.from_email = true → (sendContactForm env cd).clockCalls = 1) ∧
    (validateEmail r = true → (sendOrderConfirmation env od r).clockCalls = 1) ∧
    (validateEmail dd.customer_email = true →
      (sendDocumentDelivery env dd).clockCalls = 1) := by
  refine ⟨fun h => ?_, fun h => ?_, fun h => ?_, fun h => ?_, fun h => ?_, fun h => ?_⟩
  · simp [sendContactForm, h]
  · simp [sendOrderConfirmation, h]
  · simp [sendDocumentDelivery, h]
  · simp only [sendContactForm, h, Bool.not_true, Bool.false_eq_true, if_false]
    split <;> rfl
  · simp only [sendOrderConfirmation, h, Bool.not_true, Bool.false_eq_true, if_false]
    split <;> rfl
  · simp only [sendDocumentDelivery, h, Bool.not_true, Bool.false_eq_true, if_false]
    split <;> rfl

/-- C5 witness: the three operations at the invalid addresses
`"not-an-email"` and `"a@b"` each fail with InvalidAddress and perform no
network call. -/
theorem C5_claim_witness :
    ((sendContactForm envNoKey badContact).result =
        .error (.jsError "Invalid sender email address") ∧
      (sendContactForm envNoKey badContact).calls = []) ∧
    ((sendOrderConfirmation envNoKey sampleOrder "a@b").result =
        .error (.jsError "Invalid recipient email address") ∧
      (sendOrderConfirmation envNoKey sampleOrder "a@b").calls = []) ∧
    ((sendDocumentDelivery envNoKey badDelivery).result =
        .error (.jsError "Invalid recipient email address") ∧
      (sendDocumentDelivery envNoKey badDelivery).calls = []) := by
  have h := C5_claim envNoKey badContact sampleOrder badDelivery "a@b"
  exact ⟨h.1 rfl, h.2.1 rfl, h.2.2.1 rfl⟩

/-- C6: partitioning the documents by review-stage tag preserves per-stage
relative input order (each partition is a sublist of the input), a document
lands in a partition exactly when it is in the input with that tag, the
partitions are rendered in the fixed stage order whatever the input order,
and a document with an unrecognized tag is excluded from all three
partitions (no error is raised — the partitioning is total). -/
theorem C6_claim (documents : List DocumentItem) :
    ((documentsByStage documents).review_1.Sublist documents ∧
      (documentsByStage documents).review_2.Sublist documents ∧
      (documentsByStage documents).review_3.Sublist documents) ∧
    (∀ d, (d ∈ (documentsByStage documents).review_1 ↔
            d ∈ documents ∧ d.review_stage = "review_1") ∧
          (d ∈ (documentsByStage documents).review_2 ↔
            d ∈ documents ∧ d.review_stage = "review_2") ∧
          (d ∈ (documentsByStage documents).review_3 ↔
            d ∈ documents ∧ d.review_stage = "review_3")) ∧
    ((stageEntries (documentsByStage documents)).map Prod.fst =
      [.review_1, .review_2, .review_3]) ∧
    (∀ d, d ∈ documents →
      d.review_stage ≠ "review_1" → d.review_stage ≠ "review_2" →
      d.review_stage ≠ "review_3" →
      d ∉ (documentsByStage documents).review_1 ∧
      d ∉ (documentsByStage documents).review_2 ∧
      d ∉ (documentsByStage documents).review_3) := by
  refine ⟨⟨List.filter_sublist _, List.filter_sublist _, List.filter_sublist _⟩,
    fun d => ?_, rfl, fun d hd h1 h2 h3 => ?_⟩
  · simp [documentsByStage, List.mem_filter]
  · simp [documentsByStage, List.mem_filter, h1, h2, h3]

/-- C6 witness: the fixed stage order at the concrete test input. -/
theorem C6_claim_witness :
    (stageEntries (documentsByStage testData.documents)).map Prod.fst =
      [.review_1, .review_2, .review_3] :=
  (C6_claim testData.documents).2.2.1

/-- C7 counterexample: a document whose review-stage tag is unrecognized is
never mentioned in the plain-text summary — its entry list is empty and the
whole rendered document section is the empty string, refuting
exactly-once. -/
theorem C7_counterexample :
    unrecognizedDoc ∈ sampleDelivery.documents ∧
    listedDocs sampleDelivery.documents = [] ∧
    documentsTextSection (documentsByStage sampleDelivery.documents) = "" := by
  refine ⟨by decide, rfl, rfl⟩

/-- C7 (amended): the plain-text summary mentions each document bearing a
recognized review-stage tag exactly as often as it occurs in the input —
exactly once for a duplicate-free document list — while a document with an
unrecognized tag is omitted entirely. -/
theorem C7_claim (documents : List DocumentItem) (d : DocumentItem) :
    (d.review_stage = "review_1" ∨ d.review_stage = "review_2" ∨
        d.review_stage = "review_3" →
      (listedDocs documents).count d = documents.count d) ∧
    (d.review_stage ≠ "review_1" ∧ d.review_stage ≠ "review_2" ∧
        d.review_stage ≠ "review_3" →
      (listedDocs documents).count d = 0) := by
  have hmem : ∀ s : String, d.review_stage ≠ s →
      (documents.filter (fun x => x.review_stage == s)).count d = 0 := by
    intro s hs
    rw [List.count_eq_zero]
    intro hm
    exact hs (by simpa using (List.mem_filter.mp hm).2)
  have hkeep : ∀ s : String, d.review_stage = s →
      (documents.filter (fun x => x.review_stage == s)).count d = documents.count d :=
    fun s hs => List.count_filter (by simp [hs])
  constructor
  · rintro (h | h | h) <;>
      simp only [listedDocs, documentsByStage, List.count_append] <;>
      rw [hkeep _ h] <;>
      rw [hmem _ (by rw [h]; decide), hmem _ (by rw [h]; decide)] <;>
      omega
  · rintro ⟨h1, h2, h3⟩
    simp only [listedDocs, documentsByStage, List.count_append]
    rw [hmem _ h1, hmem _ h2, hmem _ h3]

/-- C7 witness: the recognized test document is listed exactly as often as it
occurs in the test input (once). -/
theorem C7_claim_witness :
    (listedDocs testData.documents).count testDoc = testData.documents.count testDoc :=
  (C7_claim testData.documents testDoc).1 (Or.inl rfl)

/-- C8: for a contact inquiry with a valid sender address whose underlying
channel send fails, `sendContactForm` propagates the fixed non-silent error
to the caller (and logs the failure). -/
theorem C8_claim (env : Env) (data : ContactFormData)
    (hv : validateEmail data.from_email = true)
    (hj : env.emailjs (contactCall data (env.clock 0).date (env.clock 0).time) = false) :
    (sendContactForm env data).result =
      .error (.jsError "Failed to send your message. Please try again later.") ∧
    (sendContactForm env data).logs = [.error "Contact form email failed:" none] := by
  simp [sendContactForm, hv, hj]

/-- C8 witness: instantiated at the failing-EmailJS environment. -/
theorem C8_claim_witness :
    (sendContactForm envNoKey sampleContact).result =
      .error (.jsError "Failed to send your message. Please try again later.") ∧
    (sendContactForm envNoKey sampleContact).logs =
      [.error "Contact form email failed:" none] :=
  C8_claim envNoKey sampleContact rfl rfl

/-- C9: message construction is pure and deterministic — two environments
agreeing on the configuration, the network, and the first clock reading
produce identical dispatch outcomes (messages included), even if their
clocks disagree on every later reading; and each dispatch with a valid
address reads the clock exactly once, so all rendered fragments of one
message share that single captured timestamp. -/
theorem C9_claim (env env2 : Env) (od : OrderConfirmationData) (r : String)
    (dd : DocumentDeliveryData)
    (hk : env.apiKey = env2.apiKey) (hf : env.fetch = env2.fetch)
    (hc : env.clock 0 = env2.clock 0) :
    sendOrderConfirmation env od r = sendOrderConfirmation env2 od r ∧
    sendDocumentDelivery env dd = sendDocumentDelivery env2 dd ∧
    (validateEmail r = true → (sendOrderConfirmation env od r).clockCalls = 1) ∧
    (validateEmail dd.customer_email = true →
      (sendDocumentDelivery env dd).clockCalls = 1) := by
  obtain ⟨k, f, ej, c⟩ := env
  obtain ⟨k2, f2, ej2, c2⟩ := env2
  dsimp only at hk hf hc
  subst hk
  subst hf
  refine ⟨?_, ?_, fun hv => ?_, fun hv => ?_⟩
  · simp only [sendOrderConfirmation, sendBrevoEmail]
    rw [hc]
  · simp only [sendDocumentDelivery, sendBrevoEmail]
    rw [hc]
  · simp only [sendOrderConfirmation, hv, Bool.not_true, Bool.false_eq_true, if_false]
    split <;> rfl
  · simp only [sendDocumentDelivery, hv, Bool.not_true, Bool.false_eq_true, if_false]
    split <;> rfl

/-- C9 witness: a drifting clock that agrees only at the first reading does
not change the dispatched messages, and the clock is read exactly once. -/
theorem C9_claim_witness :
    sendOrderConfirmation envNoKey sampleOrder "customer@example.com" =
      sendOrderConfirmation envNoKeyAltClock sampleOrder "customer@example.com" ∧
    sendDocumentDelivery envNoKey testData =
      sendDocumentDelivery envNoKeyAltClock testData ∧
    (sendOrderConfirmation envNoKey sampleOrder "customer@example.com").clockCalls = 1 ∧
    (sendDocumentDelivery envNoKey testData).clockCalls = 1 := by
  have h := C9_claim envNoKey envNoKeyAltClock sampleOrder "customer@example.com"
    testData rfl rfl rfl
  exact ⟨h.1, h.2.1, h.2.2.1 rfl, h.2.2.2 rfl⟩

/-- Helper: with enough fuel, the fuelled floor logarithm agrees with
`Nat.log`. -/
theorem logBAux_eq_log (b : Nat) (hb : 1 < b) :
    ∀ fuel n, n ≤ fuel → logBAux b fuel n = Nat.log b n := by
  intro fuel
  induction fuel with
  | zero =>
    intro n hn
    have h0 : n = 0 := Nat.le_zero.mp hn
    subst h0
    simp [logBAux]
  | succ f ih =>
    intro n hn
    by_cases h : n < b
    · simp [logBAux, h, Nat.log_of_lt h]
    · push_neg at h
      have hn0 : 0 < n := by omega
      have hdiv : n / b ≤ f := by
        have := Nat.div_lt_self hn0 hb
        omega
      simp only [logBAux, if_neg (Nat.not_lt.mpr h)]
      rw [ih _ hdiv, Nat.log_of_one_lt_of_le hb h]

/-- Helper: the unit index of `formatFileSize` is the floor base-1024
logarithm. -/
theorem formatFileSizeExp_eq_log (n : Nat) : formatFileSizeExp n = Nat.log 1024 n :=
  logBAux_eq_log 1024 (by norm_num) n n le_rfl

/-- C4 counterexample: at 1048575 bytes the rendered mantissa is exactly
1024.00 (printed `"1024 KB"` after trailing-zero stripping), outside the
claimed half-open interval; and at 1024⁴ bytes the unit index runs past the
end of the unit array (JavaScript `undefined`), not a member of
{Bytes, KB, MB, GB}. -/
theorem C4_counterexample :
    formatFileSizeMantissaH 1048575 = 102400 ∧
    formatFileSize 1048575 = "1024 KB" ∧
    formatFileSizeUnit (1024 ^ 4) = none := by
  refine ⟨by decide, by decide, by decide⟩

/-- C4 (amended): for every byte count `1 ≤ b < 1024⁴`, the rendered
mantissa lies in the closed interval `[1.00, 1024.00]` (the upper bound is
attained through rounding), the unit index is `⌊log₁₀₂₄ b⌋ < 4`, so the unit
is one of {Bytes, KB, MB, GB}; and `formatFileSize 0` is exactly
`"0 Bytes"`. -/
theorem C4_claim (b : Nat) (h1 : 1 ≤ b) (h2 : b < 1024 ^ 4) :
    100 ≤ formatFileSizeMantissaH b ∧ formatFileSizeMantissaH b ≤ 102400 ∧
    formatFileSizeExp b < 4 ∧
    (∃ u, formatFileSizeUnit b = some u ∧ u ∈ sizes) ∧
    formatFileSize 0 = "0 Bytes" := by
  have hb0 : b ≠ 0 := by omega
  have hE : formatFileSizeExp b = Nat.log 1024 b := formatFileSizeExp_eq_log b
  have hp : 0 < 1024 ^ formatFileSizeExp b := Nat.pow_pos (by norm_num)
  have hlow : 1024 ^ formatFileSizeExp b ≤ b := by
    rw [hE]; exact Nat.pow_log_le_self 1024 hb0
  have hhigh : b < 1024 ^ formatFileSizeExp b * 1024 := by
    have h := Nat.lt_pow_succ_log_self (by norm_num : 1 < 1024) b
    rw [hE]
    calc b < 1024 ^ (Nat.log 1024 b).succ := h
    _ = 1024 ^ Nat.log 1024 b * 1024 := by rw [Nat.pow_succ]
  have hexp : formatFileSizeExp b < 4 := by
    rw [hE]; exact Nat.log_lt_of_lt_pow hb0 h2
  have hman : formatFileSizeMantissaH b =
      (200 * b + 1024 ^ formatFileSizeExp b) / (2 * 1024 ^ formatFileSizeExp b) := rfl
  refine ⟨?_, ?_, hexp, ?_, rfl⟩
  · rw [hman, Nat.le_div_iff_mul_le (by omega)]
    omega
  · rw [hman]
    have hlt : (200 * b + 1024 ^ formatFileSizeExp b) /
        (2 * 1024 ^ formatFileSizeExp b) < 102401 := by
      rw [Nat.div_lt_iff_lt_mul (by omega)]
      omega
    omega
  · have h4 : formatFileSizeExp b = 0 ∨ formatFileSizeExp b = 1 ∨
        formatFileSizeExp b = 2 ∨ formatFileSizeExp b = 3 := by omega
    unfold formatFileSizeUnit
    rcases h4 with h | h | h | h <;> rw [h]
    · exact ⟨"Bytes", rfl, by simp [sizes]⟩
    · exact ⟨"KB", rfl, by simp [sizes]⟩
    · exact ⟨"MB", rfl, by simp [sizes]⟩
    · exact ⟨"GB", rfl, by simp [sizes]⟩

/-- C4 witness: the amended bounds at 1536 bytes (1.5 KB). -/
theorem C4_claim_witness :
    100 ≤ formatFileSizeMantissaH 1536 ∧ formatFileSizeMantissaH 1536 ≤ 102400 ∧
    formatFileSizeExp 1536 < 4 ∧
    (∃ u, formatFileSizeUnit 1536 = some u ∧ u ∈ sizes) ∧
    formatFileSize 0 = "0 Bytes" :=
  C4_claim 1536 (by norm_num) (by norm_num)

end EmailTs
